import Mathlib

/-!
Verification of `pySim/cards.py` (SIM card programming logic).

Shallow embedding conventions:
* Hex strings are `List Nat` of nibble values (each `< 16`); decimal digit
  strings (ICCID, IMSI) are `List Nat` of digit values; byte strings
  (provider names) are `List Nat` of byte values (each `< 256`).
* The codec helpers (`swap_nibbles`, `rpad`, `lpad`, `b2h`) live in
  `pySim/utils.py`, which is not part of the sources at hand; they are
  modelled from the specification (section 4.1), as noted on each one.
* The card-communication collaborator (`select_file`, `record_size`,
  `update_record`, `update_binary`) is external to the repository; its
  surface is modelled from the specification (section 6).
* Python 2 integer division on non-negative operands is `Nat` division;
  division by zero, which raises in Python, is an explicit error value.
-/

namespace PySim

/-- Modelled from the spec (the helper lives in the absent `pySim/utils.py`):
`swap_nibbles` "swaps each adjacent nibble pair; length-preserving; is its
own inverse".  An unpaired trailing nibble is left in place, which keeps the
function length-preserving and involutive. -/
def swap_nibbles : List Nat → List Nat
  | a :: b :: rest => b :: a :: swap_nibbles rest
  | rest => rest

/-- Modelled from the spec (the helper lives in the absent `pySim/utils.py`):
`rpad` "right-pads with filler nibble `f` to length n hex characters;
fails/undefined if input already exceeds n".  For inputs longer than `n` we
totalise it as the identity (no padding), mirroring that no truncation can
occur; claims never rely on that region being anything in particular. -/
def rpad (s : List Nat) (n : Nat) : List Nat :=
  s ++ List.replicate (n - s.length) 15

/-- Modelled from the spec (the helper lives in the absent `pySim/utils.py`):
`lpad` "left-pads with `0` similarly". -/
def lpad (s : List Nat) (n : Nat) : List Nat :=
  List.replicate (n - s.length) 0 ++ s

/-- Modelled from the spec (the helper lives in the absent `pySim/utils.py`):
`b2h` turns a byte string into its hex representation, two nibbles per
byte. -/
def b2h : List Nat → List Nat
  | [] => []
  | b :: rest => b / 16 :: b % 16 :: b2h rest

/-- Python's `'%02x' % n` for `n < 256`: two hex nibbles.  Every use in
`cards.py` formats a value at most `0xff`. -/
def toHex2 (n : Nat) : List Nat :=
  [n / 16, n % 16]

/-- Python's `'%d' % n` left-zero-padded by `lpad` to three digits: the
decimal digits of `n` (for `n ≤ 999`, as the spec bounds MCC/MNC). -/
def decDigits (n : Nat) : List Nat :=
  if n < 10 then [n]
  else if n < 100 then [n / 10, n % 10]
  else [n / 100, n / 10 % 10, n % 10]

/-- Embeds `Card._e_iccid` (cards.py line 32-33): `swap_nibbles(iccid)`. -/
def e_iccid (iccid : List Nat) : List Nat :=
  swap_nibbles iccid

/-- The 16-hex-character payload built inside `Card._e_imsi`
(cards.py line 39): `lpad('%01x%s' % ((oe<<3)|1, imsi), 16)` where
`oe = len(imsi) & 1`. -/
def e_imsi_payload (imsi : List Nat) : List Nat :=
  lpad (((imsi.length % 2) <<< 3 ||| 1) :: imsi) 16

/-- Embeds `Card._e_imsi` (cards.py line 35-40):
`'%02x' % ((len(imsi)+1)//2) + swap_nibbles(payload)`. -/
def e_imsi (imsi : List Nat) : List Nat :=
  toHex2 ((imsi.length + 1) / 2) ++ swap_nibbles (e_imsi_payload imsi)

/-- Embeds `Card._e_plmn` (cards.py line 42-44):
`swap_nibbles(lpad('%d' % mcc, 3) + lpad('%d' % mnc, 3))`. -/
def e_plmn (mcc mnc : Nat) : List Nat :=
  swap_nibbles (lpad (decDigits mcc) 3 ++ lpad (decDigits mnc) 3)

/-- A subscriber profile as consumed by `program` (spec section 3):
name as bytes, ICCID/IMSI as decimal digits, Ki and SMSP as hex nibbles. -/
structure Profile where
  name : List Nat
  iccid : List Nat
  imsi : List Nat
  mcc : Nat
  mnc : Nat
  ki : List Nat
  smsp : List Nat

/-- Errors a `_get_count` / `_get_infos` call can raise: `RuntimeError('Bad
card type')`, and Python's `ZeroDivisionError` when the probed record length
is zero. -/
inductive PyErr where
  | badCardType
  | zeroDivision
deriving DecidableEq, Repr

/-- Embeds `_MagicSimBase._get_count` (cards.py line 83-98), abstracted over the
probed geometry of the `name` file (`tlen`, `recLen`, parsed out of the
`select_file` response by the source) and the family's declared record
length `declared` (`self._files['name'][1]`):
`rec_cnt = (tlen / rec_len) - 1` (Python 2 floor division), then
`raise RuntimeError('Bad card type')` if `rec_cnt < 1 or rec_len != f[1]`,
else return `rec_cnt`. -/
def magic_get_count (declared tlen recLen : Nat) : Except PyErr Int :=
  if recLen = 0 then .error .zeroDivision
  else
    let rec_cnt : Int := ((tlen / recLen : Nat) : Int) - 1
    if rec_cnt < 1 ∨ recLen ≠ declared then .error .badCardType
    else .ok rec_cnt

/-- Embeds `FakeMagicSim._get_infos` (cards.py line 208-222), abstracted over the
probed geometry of `3f00/000c`: same derivation as `_get_count` with the
declared constant `0x5a` (90), returning `(rec_cnt, rec_len)`. -/
def fake_get_infos (tlen recLen : Nat) : Except PyErr (Int × Nat) :=
  if recLen = 0 then .error .zeroDivision
  else
    let rec_cnt : Int := ((tlen / recLen : Nat) : Int) - 1
    if rec_cnt < 1 ∨ recLen ≠ 0x5a then .error .badCardType
    else .ok (rec_cnt, recLen)

/-- A `_MagicSimBase._files` descriptor: each entry is
`(file id, record length, length-must-match flag)` keyed `name`/`b_ef`/`r_ef`. -/
structure MagicFiles where
  name : String × Nat × Bool
  b_ef : String × Nat × Bool
  r_ef : String × Nat × Bool

/-- Embeds `SuperSim._files` (cards.py line 167-171). -/
def superSimFiles : MagicFiles :=
  ⟨("8f0c", 18, true), ("8f0d", 74, true), ("8f0e", 50, true)⟩

/-- Embeds `MagicSim._files` (cards.py line 180-184). -/
def magicSimFiles : MagicFiles :=
  ⟨("8f0c", 18, true), ("8f0d", 130, true), ("8f0e", 102, false)⟩

/-- Embeds `_files.values()` as iterated by `autodetect`. -/
def MagicFiles.values (fs : MagicFiles) : List (String × Nat × Bool) :=
  [fs.name, fs.b_ef, fs.r_ef]

/-- The `try`-protected loop body of `_MagicSimBase.autodetect`
(cards.py line 73-77): for each `(p, l, t)` with `t` set, probe
`record_size(['3f00', '7f4d', p])`; a collaborator fault propagates (to the
`except` handler), a mismatch yields `false` (`return None`), and exhausting
the list yields `true`.  `probe` is the external collaborator's
`record_size`, allowed to fail with any fault `ε`. -/
def magic_probe_loop {ε : Type} (probe : List String → Except ε Nat) :
    List (String × Nat × Bool) → Except ε Bool
  | [] => .ok true
  | (p, l, t) :: rest =>
    if t then
      match probe ["3f00", "7f4d", p] with
      | .error e => .error e
      | .ok n => if n ≠ l then .ok false else magic_probe_loop probe rest
    else magic_probe_loop probe rest

/-- Embeds `_MagicSimBase.autodetect` (cards.py line 70-81): the loop wrapped in
`try: ... except: return None`; on full success return an instance
(modelled as `some ()`). -/
def magic_autodetect {ε : Type} (fs : MagicFiles)
    (probe : List String → Except ε Nat) : Option Unit :=
  match magic_probe_loop probe fs.values with
  | .error _ => none
  | .ok false => none
  | .ok true => some ()

/-- Embeds `FakeMagicSim.autodetect` (cards.py line 198-206):
`record_size(['3f00', '000c']) != 0x5a` means `None`, any fault is swallowed
by the bare `except`, otherwise an instance. -/
def fake_autodetect {ε : Type} (probe : List String → Except ε Nat) :
    Option Unit :=
  match probe ["3f00", "000c"] with
  | .error _ => none
  | .ok n => if n ≠ 0x5a then none else some ()

/-- Modelled from the spec (section 6, the external collaborator): an
elementary file as the card presents it — its geometry (`total_size`,
`record_length`, both read back from `select_file`) and its mutable
contents (per-record data for record files, flat data for binary files). -/
structure EF where
  tlen : Nat
  recLen : Nat
  recs : Nat → List Nat
  bin : List Nat

/-- Modelled from the spec (section 6): card state maps a full selection
path to the elementary file there. -/
def CardState : Type := List String → EF

/-- A write command sent to the collaborator, with the selection path
resolved: `update_binary` or `update_record` (spec section 6). -/
inductive ScOp where
  | updateBinary (path : List String) (data : List Nat)
  | updateRecord (path : List String) (idx : Nat) (data : List Nat)
deriving DecidableEq

/-- Modelled from the spec (section 6): `update_record` replaces one
record's data, `update_binary` replaces the flat contents; neither touches
any file's geometry. -/
def applyOp (s : CardState) : ScOp → CardState
  | .updateBinary path data => fun q =>
      if q = path then { s q with bin := data } else s q
  | .updateRecord path idx data => fun q =>
      if q = path then
        { s q with recs := fun i => if i = idx then data else (s q).recs i }
      else s q

/-- Apply a sequence of write commands in order. -/
def applyOps (s : CardState) (ops : List ScOp) : CardState :=
  ops.foldl applyOp s

/-- Embeds `_MagicSimBase._get_count` reading its geometry off the card state: the
source selects `['3f00', '7f4d', self._files['name'][0]]` and parses
`rec_len`/`tlen` from the response. -/
def magic_get_count_st (fs : MagicFiles) (s : CardState) : Except PyErr Int :=
  let ef := s ["3f00", "7f4d", fs.name.1]
  magic_get_count fs.name.2.1 ef.tlen ef.recLen

/-- Embeds `FakeMagicSim._get_infos` reading its geometry off the card state
(the source selects `['3f00', '000c']`). -/
def fake_get_infos_st (s : CardState) : Except PyErr (Int × Nat) :=
  let ef := s ["3f00", "000c"]
  fake_get_infos ef.tlen ef.recLen

/-- The per-file erase payload and start offset built by
`_MagicSimBase.erase` (cards.py line 148-155): `fv = v[1] * 'ff'`, and for
the `name` file `ofs = 2` with `fv = fv[0:-4] + '0000'` (record length − 2
bytes of `0xff`, then a `0x00` length byte and `0x00` validity byte). -/
def magic_erase_value (isName : Bool) (len : Nat) : List Nat :=
  if isName then List.replicate (2 * len - 4) 15 ++ [0, 0, 0, 0]
  else List.replicate (2 * len) 15

/-- The write sequence issued by the loop of `_MagicSimBase.erase`
(cards.py line 157-160): for each `n` in `range(0, count)`, one
`update_record(['3f00', '7f4d', k], n + ofs, msg)` per descriptor file,
with `ofs = 2` for the `name` file and `1` otherwise. -/
def magic_erase_writes (fs : MagicFiles) (cnt : Nat) : List ScOp :=
  (List.range cnt).flatMap fun n =>
    [ .updateRecord ["3f00", "7f4d", fs.name.1] (n + 2)
        (magic_erase_value true fs.name.2.1),
      .updateRecord ["3f00", "7f4d", fs.b_ef.1] (n + 1)
        (magic_erase_value false fs.b_ef.2.1),
      .updateRecord ["3f00", "7f4d", fs.r_ef.1] (n + 1)
        (magic_erase_value false fs.r_ef.2.1) ]

/-- Embeds `_MagicSimBase.erase` (cards.py line 146-160) as a state transformer:
`_get_count`, then the write loop; a `_get_count` error propagates. -/
def magic_erase (fs : MagicFiles) (s : CardState) : Except PyErr CardState :=
  match magic_get_count_st fs s with
  | .error e => .error e
  | .ok cnt => .ok (applyOps s (magic_erase_writes fs cnt.toNat))

/-- Embeds `FakeMagicSim.erase` (cards.py line 248-255) as a state transformer:
`_get_infos`, then `update_record('000c', 1+i, 'ff' * rec_len)` for each
`i` in `range(0, rec_cnt)`. -/
def fake_erase (s : CardState) : Except PyErr CardState :=
  match fake_get_infos_st s with
  | .error e => .error e
  | .ok (cnt, recLen) =>
    .ok (applyOps s ((List.range cnt.toNat).map fun i =>
      .updateRecord ["3f00", "000c"] (1 + i) (List.replicate (2 * recLen) 15)))

/-- The operator-name record written by `_MagicSimBase.program`
(cards.py line 108-110): `rpad(b2h(p['name']), 32) + '%02x' % len(p['name'])
+ '01'` — the name hex right-padded to 32 hex characters, the full
(untruncated) name length, and the validity byte. -/
def magic_name_record (name : List Nat) : List Nat :=
  rpad (b2h name) 32 ++ toHex2 name.length ++ [0, 1]

/-- The name field of a `FakeMagicSim` entry (cards.py line 238):
`rpad(b2h(p['name'][0:14]), 28)` — the name truncated to 14 bytes, then
padded with `0xff` to 14 bytes. -/
def fake_name_field (name : List Nat) : List Nat :=
  rpad (b2h (name.take 14)) 28

/-- The 90-byte provider entry built by `FakeMagicSim.program`
(cards.py line 236-245), field by field in source order: status `'81'`,
14-byte name, ICCID, IMSI, Ki, `24*'f' + 'fd' + 24*'f'`, SMSP padded to 20
hex characters, `10*'f'`. -/
def fake_entry (p : Profile) : List Nat :=
  [8, 1] ++
  fake_name_field p.name ++
  e_iccid p.iccid ++
  e_imsi p.imsi ++
  p.ki ++
  (List.replicate 24 15 ++ [15, 13] ++ List.replicate 24 15) ++
  rpad p.smsp 20 ++
  List.replicate 10 15

/-- Embeds `FakeMagicSim.program` (cards.py line 224-246) as the command trace it
issues together with its outcome: first the home-PLMN `update_binary` on
`3f00/7f20/6f30` (`hplmn + 'ff' * (tl-3)`, where `tl` is that file's probed
total size), then `_get_infos` (whose failure aborts after the first
write), then `update_record('000c', 1, entry)`. -/
def fake_program (s : CardState) (p : Profile) :
    List ScOp × Except PyErr Unit :=
  let tl := (s ["3f00", "7f20", "6f30"]).tlen
  let hplmn := e_plmn p.mcc p.mnc
  let op1 := ScOp.updateBinary ["3f00", "7f20", "6f30"]
    (hplmn ++ List.replicate (2 * (tl - 3)) 15)
  match fake_get_infos_st s with
  | .error e => ([op1], .error e)
  | .ok _ => ([op1, .updateRecord ["3f00", "000c"] 1 (fake_entry p)], .ok ())

/-- The record-write commands a trace contains for file `3f00/000c`. -/
def writesTo000c (ops : List ScOp) : List ScOp :=
  ops.filter fun op =>
    match op with
    | .updateRecord path _ _ => path = ["3f00", "000c"]
    | _ => false

/-- The example profile of the spec's section 8 test:
name `"Test"` (ASCII bytes), ICCID `"8931080000000000000"` (19 digits),
IMSI `"001010000000001"`, `mcc = mnc = 1`, Ki `"00" * 16` (32 hex zeros),
SMSP `"ff" * 10` (20 hex `f`s). -/
def exProfile : Profile where
  name := [84, 101, 115, 116]
  iccid := [8, 9, 3, 1, 0, 8, 0, 0, 0, 0, 0, 0, 0, 0, 0, 0, 0, 0, 0]
  imsi := [0, 0, 1, 0, 1, 0, 0, 0, 0, 0, 0, 0, 0, 0, 1]
  mcc := 1
  mnc := 1
  ki := List.replicate 32 0
  smsp := List.replicate 20 15

/-- The profile `exProfile` with the ICCID extended to the even, 20-digit form
`"89310800000000000000"`; with it every field of the `FakeMagicSim` entry
has its nominal width. -/
def exProfile20 : Profile :=
  { exProfile with
    iccid := [8, 9, 3, 1, 0, 8, 0, 0, 0, 0, 0, 0, 0, 0, 0, 0, 0, 0, 0, 0] }

/-- A concrete card state for witnesses: the `FakeMagicSim` file
`3f00/000c` has total size 180 and record length 90 (count
`180/90 - 1 = 1`), the `SuperSim`/`MagicSim` name file `3f00/7f4d/8f0c`
has total size 36 and record length 18 (count `36/18 - 1 = 1`), and the
PLMN-selector file `3f00/7f20/6f30` has total size 30; everything else is
an empty file. -/
def testState : CardState := fun q =>
  if q = ["3f00", "000c"] then ⟨180, 90, fun _ => [], []⟩
  else if q = ["3f00", "7f4d", "8f0c"] then ⟨36, 18, fun _ => [], []⟩
  else if q = ["3f00", "7f20", "6f30"] then ⟨30, 0, fun _ => [], []⟩
  else ⟨0, 0, fun _ => [], []⟩

end PySim

namespace PySim

set_option maxRecDepth 4000

example : (fake_entry exProfile).length = 179 := by decide

example : (fake_entry exProfile20).length = 180 := by decide

example : ((fake_entry exProfile20).drop 30).take 20 = e_iccid exProfile20.iccid := by decide

example : ((fake_entry exProfile20).drop 50).take 18 = e_imsi exProfile20.imsi := by decide

example : (fake_entry exProfile20).take 2 = [8, 1] := by decide

example : swap_nibbles [1, 2, 3, 4] = [2, 1, 4, 3] := by decide

/-- The function `swap_nibbles` is length-preserving (spec section 4.1). -/
theorem swap_nibbles_length : ∀ s : List Nat, (swap_nibbles s).length = s.length
  | [] => rfl
  | [_] => rfl
  | _ :: _ :: rest => by simp [swap_nibbles, swap_nibbles_length rest]

/-- The function `swap_nibbles` is its own inverse (spec section 4.1). -/
theorem swap_nibbles_swap_nibbles :
    ∀ s : List Nat, swap_nibbles (swap_nibbles s) = s
  | [] => rfl
  | [_] => rfl
  | a :: b :: rest => by simp [swap_nibbles, swap_nibbles_swap_nibbles rest]

theorem b2h_length : ∀ s : List Nat, (b2h s).length = 2 * s.length
  | [] => rfl
  | _ :: rest => by simp [b2h, b2h_length rest]; omega

theorem rpad_length (s : List Nat) (n : Nat) :
    (rpad s n).length = max s.length n := by
  simp [rpad]; omega

theorem lpad_length (s : List Nat) (n : Nat) :
    (lpad s n).length = max s.length n := by
  simp [lpad]; omega

theorem e_imsi_payload_length (imsi : List Nat) :
    (e_imsi_payload imsi).length = max (imsi.length + 1) 16 := by
  simp [e_imsi_payload, lpad_length]

theorem e_imsi_length (imsi : List Nat) (h : imsi.length ≤ 15) :
    (e_imsi imsi).length = 18 := by
  simp [e_imsi, toHex2, swap_nibbles_length, e_imsi_payload_length]
  omega

theorem fake_name_field_length (name : List Nat) :
    (fake_name_field name).length = 28 := by
  simp [fake_name_field, rpad_length, b2h_length]
  omega

example : e_imsi [1] = [0, 1] ++ List.replicate 14 0 ++ [1, 9] := by decide

example : magic_get_count 18 342 18 = .ok 18 := rfl

example : magic_get_count 18 100 18 = .ok 4 := rfl

end PySim

namespace PySim

set_option maxRecDepth 4000

/-- Claim C2, counterexample: the spec's 19-digit example ICCID
`"8931080000000000000"` encodes to 19 hex digits, not the claimed 10 bytes
(20 hex digits) — `_e_iccid` applies no filler padding. -/
theorem e_iccid_example_not_ten_bytes :
    (e_iccid exProfile.iccid).length = 19 ∧ (19 : Nat) ≠ 20 := by decide

/-- Claim C2 (amended): `_e_iccid` is the plain nibble swap of the input
digits — length-preserving, involutive, no filler padding — so it produces
exactly 10 bytes (20 hex digits) precisely when the input has 20 digits. -/
theorem e_iccid_swap_no_padding (iccid : List Nat) :
    (e_iccid iccid).length = iccid.length ∧
    e_iccid (e_iccid iccid) = iccid ∧
    ((e_iccid iccid).length = 20 ↔ iccid.length = 20) := by
  refine ⟨swap_nibbles_length iccid, swap_nibbles_swap_nibbles iccid, ?_⟩
  rw [show e_iccid iccid = swap_nibbles iccid from rfl, swap_nibbles_length]

/-- Claim C3, counterexample: for the 1-digit IMSI `"1"` the 16-hex-digit
payload of `_e_imsi` is not the header nibble `(1<<3)|1 = 9` followed by the
IMSI left-padded to 15 digits — the payload starts with a padding `0`,
because `lpad` pads the concatenation header+IMSI as a whole. -/
theorem e_imsi_payload_header_not_first :
    e_imsi_payload [1] ≠ ((1 <<< 3) ||| 1) :: lpad [1] 15 ∧
    (e_imsi_payload [1]).head? = some 0 := by decide

/-- Claim C3 (amended): the 16-hex-digit payload of `_e_imsi` is the
concatenation header-nibble `(parity<<3)|1` + IMSI, left-padded with `0` as
a whole to 16 digits; the header nibble is the first nibble of the payload
only for 15-digit IMSIs — for shorter ones the payload starts with a
padding zero. -/
theorem e_imsi_payload_structure (imsi : List Nat) (h : imsi.length ≤ 15) :
    e_imsi_payload imsi =
      List.replicate (15 - imsi.length) 0 ++
        ((imsi.length % 2) <<< 3 ||| 1) :: imsi ∧
    (imsi.length = 15 →
      e_imsi_payload imsi = ((imsi.length % 2) <<< 3 ||| 1) :: imsi) ∧
    (imsi.length < 15 → (e_imsi_payload imsi).head? = some 0) := by
  have h1 : e_imsi_payload imsi =
      List.replicate (15 - imsi.length) 0 ++
        ((imsi.length % 2) <<< 3 ||| 1) :: imsi := by
    have h2 : 16 - (imsi.length + 1) = 15 - imsi.length := by omega
    simp only [e_imsi_payload, lpad, List.length_cons, h2]
  refine ⟨h1, fun h15 => ?_, fun hlt => ?_⟩
  · rw [h1, h15]; rfl
  · have h3 : 15 - imsi.length = (15 - imsi.length - 1) + 1 := by omega
    rw [h1, h3, List.replicate_succ, List.cons_append]
    rfl

/-- Witness for claim C3's amended theorem at the spec's 15-digit example
IMSI `"001010000000001"`: there the header nibble does lead the payload. -/
theorem e_imsi_payload_structure_witness :
    e_imsi_payload exProfile.imsi =
      ((exProfile.imsi.length % 2) <<< 3 ||| 1) :: exProfile.imsi :=
  (e_imsi_payload_structure exProfile.imsi (by decide)).2.1 (by decide)

/-- Claim C4: for the 2-digit IMSI `"12"` the encoder's output is 9 bytes,
but its first byte is `0x01` — the code's `(len(imsi)+1)//2` floor
division — whereas the claim (and the code's own `# Required bytes`
comment) require `ceil((2+1)/2) = 2` bytes for the 3 nibbles
header+IMSI. -/
theorem e_imsi_length_byte_floor :
    (e_imsi [1, 2]).take 2 = [0, 1] ∧
    (e_imsi [1, 2]).length = 18 ∧
    (([1, 2] : List Nat).length + 1 + 1) / 2 = 2 ∧
    ([0, 1] : List Nat) ≠ [0, 2] := by decide

end PySim

namespace PySim

/-- Claim C5: for every probed geometry with a nonzero record length (a zero
record length raises Python's `ZeroDivisionError` instead, before either
check runs), `_get_count` (resp. `FakeMagicSim._get_infos`) raises
`Bad card type` exactly when the derived count `total_size/record_length - 1`
is below 1 or the probed record length differs from the declared constant
(`18` for the name file, `0x5a = 90` for `FakeMagicSim`); otherwise it
returns that count. -/
theorem get_count_bad_card_type_iff (declared tlen recLen : Nat)
    (h : 0 < recLen) :
    (magic_get_count declared tlen recLen = .error .badCardType ↔
      ((tlen / recLen : Nat) : Int) - 1 < 1 ∨ recLen ≠ declared) ∧
    (¬(((tlen / recLen : Nat) : Int) - 1 < 1 ∨ recLen ≠ declared) →
      magic_get_count declared tlen recLen =
        .ok (((tlen / recLen : Nat) : Int) - 1)) ∧
    (fake_get_infos tlen recLen = .error .badCardType ↔
      ((tlen / recLen : Nat) : Int) - 1 < 1 ∨ recLen ≠ 0x5a) ∧
    (¬(((tlen / recLen : Nat) : Int) - 1 < 1 ∨ recLen ≠ 0x5a) →
      fake_get_infos tlen recLen =
        .ok (((tlen / recLen : Nat) : Int) - 1, recLen)) := by
  have hz : ¬recLen = 0 := by omega
  unfold magic_get_count fake_get_infos
  simp only [hz, if_false]
  refine ⟨?_, ?_, ?_, ?_⟩ <;> split_ifs with hc <;> simp_all <;>
    (obtain ⟨h1, h2⟩ := hc; subst h2; exact_mod_cast h1)

/-- Witness for claim C5: geometry `total_size = 342`, `record_length = 18`
gives count `342/18 - 1 = 18` for a declared length of 18, while
`FakeMagicSim` (declared `90`) rejects the same geometry. -/
theorem get_count_bad_card_type_iff_witness :
    magic_get_count 18 342 18 = .ok 18 ∧
    fake_get_infos 342 18 = .error .badCardType := by
  constructor
  · have h1 := (get_count_bad_card_type_iff 18 342 18 (by decide)).2.1
      (by decide)
    simpa using h1
  · exact (get_count_bad_card_type_iff 18 342 18 (by decide)).2.2.1.mpr
      (by decide)

/-- Claim C6: the record-count derivation is a silent floor division with no
exactness check — on a name file of total size 100 with record length 18
(not an exact multiple: 100 = 5·18 + 10) `_get_count` succeeds with count 4
instead of failing, and `_get_infos` on total size 200 with record length 90
(200 = 2·90 + 20) succeeds with count 1. -/
theorem get_count_silent_truncation :
    magic_get_count 18 100 18 = .ok 4 ∧ 100 % 18 ≠ 0 ∧
    fake_get_infos 200 90 = .ok (1, 90) ∧ 200 % 90 ≠ 0 :=
  ⟨rfl, by decide, rfl, by decide⟩

end PySim

namespace PySim

/-- The probe loop of `_MagicSimBase.autodetect` succeeds with `true`
exactly when every length-checked file probes to its declared record
length. -/
theorem magic_probe_loop_ok_true_iff {ε : Type}
    (probe : List String → Except ε Nat) :
    ∀ l : List (String × Nat × Bool),
      magic_probe_loop probe l = .ok true ↔
        ∀ x ∈ l, x.2.2 = true → probe ["3f00", "7f4d", x.1] = .ok x.2.1 := by
  intro l
  induction l with
  | nil => simp [magic_probe_loop]
  | cons x rest ih =>
    obtain ⟨p, len, t⟩ := x
    cases t with
    | false => simpa [magic_probe_loop] using ih
    | true =>
      cases hp : probe ["3f00", "7f4d", p] with
      | error e => simp [magic_probe_loop, hp]
      | ok n =>
        by_cases hn : n = len
        · subst hn
          simp [magic_probe_loop, hp, ih]
        · simp [magic_probe_loop, hp, hn]

/-- Claim C7: for each family and every behaviour of the collaborator's
`record_size` (including any fault `ε`), `autodetect` is total — a fault or
a mismatch on a length-checked file surfaces as `none`, never as an error —
and it returns an instance exactly when every length-checked file of the
descriptor probes to its declared record length (for `FakeMagicSim`: the
single file `3f00/000c` probes to `0x5a = 90`). -/
theorem autodetect_none_or_all_match {ε : Type} (fs : MagicFiles)
    (probe : List String → Except ε Nat) :
    ((magic_autodetect fs probe).isSome = true ↔
      ∀ x ∈ fs.values, x.2.2 = true →
        probe ["3f00", "7f4d", x.1] = .ok x.2.1) ∧
    ((fake_autodetect probe).isSome = true ↔
      probe ["3f00", "000c"] = .ok 0x5a) := by
  constructor
  · rw [← magic_probe_loop_ok_true_iff probe fs.values]
    unfold magic_autodetect
    cases hl : magic_probe_loop probe fs.values with
    | error e => simp [hl]
    | ok b => cases b <;> simp [hl]
  · unfold fake_autodetect
    cases hp : probe ["3f00", "000c"] with
    | error e => simp [hp]
    | ok n =>
      by_cases hn : n = 0x5a
      · subst hn; simp [hp]
      · simp [hp, hn]

end PySim


namespace PySim

/-- A single `update_record`/`update_binary` leaves every file's geometry
(total size and record length) unchanged. -/
theorem applyOp_geom (s : CardState) (op : ScOp) (q : List String) :
    ((applyOp s op) q).tlen = (s q).tlen ∧
    ((applyOp s op) q).recLen = (s q).recLen := by
  cases op <;> simp only [applyOp] <;> split <;> simp

/-- A sequence of write commands leaves every file's geometry unchanged. -/
theorem applyOps_geom : ∀ (ops : List ScOp) (s : CardState) (q : List String),
    ((applyOps s ops) q).tlen = (s q).tlen ∧
    ((applyOps s ops) q).recLen = (s q).recLen
  | [], _, _ => ⟨rfl, rfl⟩
  | op :: rest, s, q => by
    have h1 := applyOp_geom s op q
    have h2 := applyOps_geom rest (applyOp s op) q
    simp only [applyOps, List.foldl_cons] at h2 ⊢
    exact ⟨h2.1.trans h1.1, h2.2.trans h1.2⟩

/-- Claim C8: `erase()` does not alter file geometry.  For every card state
on which `_MagicSimBase.erase` (resp. `FakeMagicSim.erase`) completes, the
total size and record length of every file are identical before and after,
and hence `_get_count()`/`_get_infos()` return identical values — erase
only issues record overwrites, no geometry-changing operation. -/
theorem erase_preserves_geometry (fs : MagicFiles) (s s' : CardState) :
    (magic_erase fs s = .ok s' →
      (∀ q, (s' q).tlen = (s q).tlen ∧ (s' q).recLen = (s q).recLen) ∧
      magic_get_count_st fs s' = magic_get_count_st fs s) ∧
    (fake_erase s = .ok s' →
      (∀ q, (s' q).tlen = (s q).tlen ∧ (s' q).recLen = (s q).recLen) ∧
      fake_get_infos_st s' = fake_get_infos_st s) := by
  constructor
  · intro h
    unfold magic_erase at h
    cases hc : magic_get_count_st fs s with
    | error e => rw [hc] at h; cases h
    | ok cnt =>
      rw [hc] at h
      injection h with h2
      subst h2
      refine ⟨fun q => applyOps_geom _ s q, ?_⟩
      simp only [magic_get_count_st]
      rw [(applyOps_geom _ s ["3f00", "7f4d", fs.name.1]).1,
        (applyOps_geom _ s ["3f00", "7f4d", fs.name.1]).2]
      exact hc
  · intro h
    unfold fake_erase at h
    cases hc : fake_get_infos_st s with
    | error e => rw [hc] at h; cases h
    | ok info =>
      rw [hc] at h
      injection h with h2
      subst h2
      refine ⟨fun q => applyOps_geom _ s q, ?_⟩
      simp only [fake_get_infos_st]
      rw [(applyOps_geom _ s ["3f00", "000c"]).1,
        (applyOps_geom _ s ["3f00", "000c"]).2]
      exact hc

/-- Witness for claim C8 on a concrete card: geometry-derived counts are
unchanged by both erases on `testState`. -/
theorem erase_preserves_geometry_witness :
    magic_get_count_st superSimFiles
        (applyOps testState (magic_erase_writes superSimFiles 1)) =
      magic_get_count_st superSimFiles testState ∧
    fake_get_infos_st
        (applyOps testState ((List.range 1).map fun i =>
          .updateRecord ["3f00", "000c"] (1 + i) (List.replicate 180 15))) =
      fake_get_infos_st testState :=
  ⟨((erase_preserves_geometry superSimFiles testState
      (applyOps testState (magic_erase_writes superSimFiles 1))).1 rfl).2,
   ((erase_preserves_geometry superSimFiles testState
      (applyOps testState ((List.range 1).map fun i =>
        .updateRecord ["3f00", "000c"] (1 + i)
          (List.replicate 180 15)))).2 rfl).2⟩

/-- Claim C9: for every provider slot below the detected count,
`_MagicSimBase.erase` under the `SuperSim` descriptor overwrites the name
record (index `n+2`, 16 bytes `0xff` + `0x00` length + `0x00` validity),
the binary-EF record (index `n+1`, 74 bytes of `0xff`), and also the
auxiliary record-EF file's record (index `n+1`, 50 bytes of `0xff`) —
every file listed in the family descriptor is erased. -/
theorem supersim_erase_covers_descriptor (cnt n : Nat) (h : n < cnt) :
    ScOp.updateRecord ["3f00", "7f4d", "8f0c"] (n + 2)
        (List.replicate 32 15 ++ [0, 0, 0, 0]) ∈
      magic_erase_writes superSimFiles cnt ∧
    ScOp.updateRecord ["3f00", "7f4d", "8f0d"] (n + 1)
        (List.replicate 148 15) ∈ magic_erase_writes superSimFiles cnt ∧
    ScOp.updateRecord ["3f00", "7f4d", "8f0e"] (n + 1)
        (List.replicate 100 15) ∈ magic_erase_writes superSimFiles cnt := by
  refine ⟨?_, ?_, ?_⟩ <;>
    · simp only [magic_erase_writes, List.mem_flatMap, List.mem_range]
      exact ⟨n, h, by simp [superSimFiles, magic_erase_value]⟩

/-- Witness for claim C9 with one detected slot. -/
theorem supersim_erase_covers_descriptor_witness :
    ScOp.updateRecord ["3f00", "7f4d", "8f0c"] 2
        (List.replicate 32 15 ++ [0, 0, 0, 0]) ∈
      magic_erase_writes superSimFiles 1 ∧
    ScOp.updateRecord ["3f00", "7f4d", "8f0d"] 1
        (List.replicate 148 15) ∈ magic_erase_writes superSimFiles 1 ∧
    ScOp.updateRecord ["3f00", "7f4d", "8f0e"] 1
        (List.replicate 100 15) ∈ magic_erase_writes superSimFiles 1 :=
  supersim_erase_covers_descriptor 1 0 (by decide)

end PySim

namespace PySim

/-- Dropping a prefix of known length from an append. -/
theorem drop_chunk {α : Type} (A R : List α) (i : Nat) (hA : A.length = i) :
    (A ++ R).drop i = R := by
  subst hA; simp

/-- Taking a prefix of known length from an append. -/
theorem take_chunk {α : Type} (A R : List α) (i : Nat) (hA : A.length = i) :
    (A ++ R).take i = A := by
  subst hA; simp

/-- Claim C10: the provider-name record of `_MagicSimBase.program` is
well-formed (36 hex digits = 18 bytes) exactly when the profile name is at
most 16 bytes — `rpad` to 32 hex digits is undefined beyond that — and
within that bound it contains the whole name hex-encoded, `0xff` padding,
and a length byte equal to the full, untruncated name length; by contrast
`FakeMagicSim`'s name field truncates the name to 14 bytes and is always
28 hex digits. -/
theorem magic_name_record_untruncated (name : List Nat) :
    ((magic_name_record name).length = 36 ↔ name.length ≤ 16) ∧
    (name.length ≤ 16 →
      magic_name_record name =
        b2h name ++ List.replicate (32 - 2 * name.length) 15 ++
          toHex2 name.length ++ [0, 1]) ∧
    fake_name_field name = fake_name_field (name.take 14) ∧
    (fake_name_field name).length = 28 := by
  refine ⟨?_, fun h => ?_, ?_, fake_name_field_length name⟩
  · simp [magic_name_record, rpad_length, b2h_length, toHex2]
    omega
  · simp only [magic_name_record, rpad, b2h_length, List.append_assoc]
  · simp [fake_name_field, List.take_take]

/-- Witness for claim C10 at the 4-byte example name `"Test"`. -/
theorem magic_name_record_untruncated_witness :
    (magic_name_record exProfile.name).length = 36 ∧
    magic_name_record exProfile.name =
      b2h exProfile.name ++
        List.replicate (32 - 2 * exProfile.name.length) 15 ++
        toHex2 exProfile.name.length ++ [0, 1] :=
  ⟨(magic_name_record_untruncated exProfile.name).1.mpr (by decide),
   (magic_name_record_untruncated exProfile.name).2.1 (by decide)⟩

end PySim

namespace PySim

set_option maxRecDepth 8000

/-- Claim C1, counterexample: for the claim's example profile — whose ICCID
`"8931080000000000000"` has 19 digits — `FakeMagicSim.program` does write
exactly one record at index 1 of `3f00/000c`, but that record is 179 hex
digits, not the claimed 90 bytes (180 hex digits): `_e_iccid` does not pad
the odd-length ICCID, so the ICCID field is 19 hex digits and every later
field is shifted by one nibble. -/
theorem fake_program_example_not_90_bytes :
    writesTo000c (fake_program testState exProfile).1 =
      [ScOp.updateRecord ["3f00", "000c"] 1 (fake_entry exProfile)] ∧
    (fake_entry exProfile).length = 179 ∧ (179 : Nat) ≠ 180 :=
  ⟨rfl, by decide, by decide⟩

/-- Claim C1 (amended): whenever `FakeMagicSim.program` completes it writes
exactly one record at index 1 of `3f00/000c`, consisting in order of:
1 status byte `0x81`, 14 bytes of name truncated/padded with `0xff`,
the encoded ICCID, the encoded IMSI, raw Ki, the 25-byte reserved block
(12 bytes of `0xf` nibbles + `0xfd` + 12 bytes of `0xf` nibbles), SMSP
padded with `0xff` to 10 bytes, and 5 bytes of `0xff`; when the ICCID has
20 digits (the claim's 19-digit example instead yields a 179-hex-digit
record), the IMSI at most 15 digits, the Ki 32 hex digits and the SMSP at
most 20 hex digits, the record is exactly 90 bytes (180 hex digits) with
byte 0 = `0x81`, the ICCID at byte offsets 15-24 (hex digits 30-49) and
the IMSI at byte offsets 25-33 (hex digits 50-67). -/
theorem fake_program_record_layout (s : CardState) (p : Profile)
    (hic : p.iccid.length = 20) (him : p.imsi.length ≤ 15)
    (hki : p.ki.length = 32) (hsm : p.smsp.length ≤ 20)
    (hok : (fake_program s p).2 = .ok ()) :
    writesTo000c (fake_program s p).1 =
      [ScOp.updateRecord ["3f00", "000c"] 1 (fake_entry p)] ∧
    (fake_entry p).length = 180 ∧
    (fake_entry p).take 2 = [8, 1] ∧
    ((fake_entry p).drop 2).take 28 = fake_name_field p.name ∧
    ((fake_entry p).drop 30).take 20 = e_iccid p.iccid ∧
    ((fake_entry p).drop 50).take 18 = e_imsi p.imsi ∧
    ((fake_entry p).drop 68).take 32 = p.ki ∧
    ((fake_entry p).drop 100).take 50 =
      List.replicate 24 15 ++ [15, 13] ++ List.replicate 24 15 ∧
    ((fake_entry p).drop 150).take 20 = rpad p.smsp 20 ∧
    (fake_entry p).drop 170 = List.replicate 10 15 := by
  have l1 : (([8, 1] : List Nat)).length = 2 := rfl
  have l2 := fake_name_field_length p.name
  have l3 : (e_iccid p.iccid).length = 20 := by
    simp [e_iccid, swap_nibbles_length, hic]
  have l4 := e_imsi_length p.imsi him
  have l6 : ((List.replicate 24 15 : List Nat) ++
      ([15, 13] ++ List.replicate 24 15)).length = 50 := by simp
  have l7 : (rpad p.smsp 20).length = 20 := by rw [rpad_length]; omega
  have hre : (List.replicate 24 15 : List Nat) ++
      ([15, 13] ++ (List.replicate 24 15 ++ (rpad p.smsp 20 ++
        List.replicate 10 15))) =
      (List.replicate 24 15 ++ ([15, 13] ++ List.replicate 24 15)) ++
        (rpad p.smsp 20 ++ List.replicate 10 15) := by
    simp [List.append_assoc]
  refine ⟨?_, ?_, ?_, ?_, ?_, ?_, ?_, ?_, ?_, ?_⟩
  · unfold fake_program at hok ⊢
    revert hok
    cases hg : fake_get_infos_st s with
    | error e => intro hok; simp at hok
    | ok v => intro _; rfl
  · simp [fake_entry, l2, l3, l4, hki, l7]
  · simp only [fake_entry, List.append_assoc]
    rw [take_chunk _ _ 2 l1]
  · simp only [fake_entry, List.append_assoc]
    rw [drop_chunk _ _ 2 l1, take_chunk _ _ 28 l2]
  · rw [show (fake_entry p).drop 30 = ((fake_entry p).drop 2).drop 28 from
      by rw [List.drop_drop]]
    simp only [fake_entry, List.append_assoc]
    rw [drop_chunk _ _ 2 l1, drop_chunk _ _ 28 l2, take_chunk _ _ 20 l3]
  · rw [show (fake_entry p).drop 50 =
        (((fake_entry p).drop 2).drop 28).drop 20 from
      by rw [List.drop_drop, List.drop_drop]]
    simp only [fake_entry, List.append_assoc]
    rw [drop_chunk _ _ 2 l1, drop_chunk _ _ 28 l2, drop_chunk _ _ 20 l3,
      take_chunk _ _ 18 l4]
  · rw [show (fake_entry p).drop 68 =
        ((((fake_entry p).drop 2).drop 28).drop 20).drop 18 from
      by rw [List.drop_drop, List.drop_drop, List.drop_drop]]
    simp only [fake_entry, List.append_assoc]
    rw [drop_chunk _ _ 2 l1, drop_chunk _ _ 28 l2, drop_chunk _ _ 20 l3,
      drop_chunk _ _ 18 l4, take_chunk _ _ 32 hki]
  · rw [show (fake_entry p).drop 100 =
        (((((fake_entry p).drop 2).drop 28).drop 20).drop 18).drop 32 from
      by rw [List.drop_drop, List.drop_drop, List.drop_drop, List.drop_drop]]
    simp only [fake_entry, List.append_assoc]
    rw [drop_chunk _ _ 2 l1, drop_chunk _ _ 28 l2, drop_chunk _ _ 20 l3,
      drop_chunk _ _ 18 l4, drop_chunk _ _ 32 hki, hre,
      take_chunk _ _ 50 l6]
  · rw [show (fake_entry p).drop 150 =
        ((((((fake_entry p).drop 2).drop 28).drop 20).drop 18).drop
          32).drop 50 from by
      rw [List.drop_drop, List.drop_drop, List.drop_drop, List.drop_drop,
        List.drop_drop]]
    simp only [fake_entry, List.append_assoc]
    rw [drop_chunk _ _ 2 l1, drop_chunk _ _ 28 l2, drop_chunk _ _ 20 l3,
      drop_chunk _ _ 18 l4, drop_chunk _ _ 32 hki, hre,
      drop_chunk _ _ 50 l6, take_chunk _ _ 20 l7]
  · rw [show (fake_entry p).drop 170 =
        (((((((fake_entry p).drop 2).drop 28).drop 20).drop 18).drop
          32).drop 50).drop 20 from by
      rw [List.drop_drop, List.drop_drop, List.drop_drop, List.drop_drop,
        List.drop_drop, List.drop_drop]]
    simp only [fake_entry, List.append_assoc]
    rw [drop_chunk _ _ 2 l1, drop_chunk _ _ 28 l2, drop_chunk _ _ 20 l3,
      drop_chunk _ _ 18 l4, drop_chunk _ _ 32 hki, hre,
      drop_chunk _ _ 50 l6, drop_chunk _ _ 20 l7]

/-- Witness for claim C1's amended theorem: the example profile with the
20-digit ICCID on the concrete `testState` card. -/
theorem fake_program_record_layout_witness :
    writesTo000c (fake_program testState exProfile20).1 =
      [ScOp.updateRecord ["3f00", "000c"] 1 (fake_entry exProfile20)] ∧
    (fake_entry exProfile20).length = 180 :=
  ⟨(fake_program_record_layout testState exProfile20 (by decide) (by decide)
      (by decide) (by decide) rfl).1,
   (fake_program_record_layout testState exProfile20 (by decide) (by decide)
      (by decide) (by decide) rfl).2.1⟩

end PySim
